import Mathlib

/-!
Verification development for the pixivpy repository.

The definitions below are a shallow embedding of the paginated fetch engine
(`src/pixivpy/api/api.py`), the endpoint configuration dictionaries, and the
token lifecycle functions (`src/pixivpy/auth/auth.py`,
`src/pixivpy/common/data.py`, `src/pixivpy/common/decors.py`).

Conventions of the embedding:
  * JSON values are the inductive `Json`; a decoded JSON object (a Python
    dict produced by `response.json()`) is an association list
    `List (String × Json)` with unique keys, looked up by first match.
  * Python exceptions are the inductive `PyErr`.  Constructors mirror both
    the exception classes declared by the library
    (`src/pixivpy/common/exceptions.py`, `src/pixivpy/api/exceptions.py`,
    `src/pixivpy/auth/exceptions.py`) and the Python built-ins the code can
    raise (`KeyError`, `TypeError`, ...).
  * The HTTP transport is mocked, exactly as the repository's unit tests do
    (`src/tests/test_api.py`, `src/tests/unit/test_api_unit.py`): the
    endpoint model function is a pure function from the call index and the
    keyword-argument dict to a page.
  * Generators are modelled with fuel: the fuel argument is the number of
    times the consumer pulls a page out of the `_call_api` generator.  One
    unit of fuel corresponds to one iteration of the `while` loop of
    `_call_api`, which issues at most one transport call.
-/

namespace Pixivpy

/-- JSON values, as produced by `response.json()` in
`src/pixivpy/common/decors.py`. -/
inductive Json where
  | null
  | bool (b : Bool)
  | num (n : Int)
  | str (s : String)
  | arr (elems : List Json)
  | obj (fields : List (String × Json))

/-- A decoded JSON object / Python dict: keys mapped to values, unique keys,
insertion order preserved. -/
abbrev JDict := List (String × Json)

/-- A page response, one per HTTP round trip. -/
abbrev Page := JDict

/-- The keyword-argument dictionary handed to an endpoint model function. -/
abbrev Kwargs := JDict

/-- Python `d[k]` on a dict, as a total lookup: the value of the first
matching key. -/
def plookup : JDict → String → Option Json
  | [], _ => none
  | (k', v) :: rest, k => if k' = k then some v else plookup rest k

/-- Lookup with a default, for positions where the embedding has already
established that the key is present. -/
def plookupD (d : JDict) (k : String) (dflt : Json) : Json :=
  (plookup d k).getD dflt

/-- Python `d[k] = v`: overwrite the value if the key exists (keeping its
position, as Python dicts do), else append the new entry at the end. -/
def pset : JDict → String → Json → JDict
  | [], k, v => [(k, v)]
  | (k', v') :: rest, k, v =>
    if k' = k then (k, v) :: rest else (k', v') :: pset rest k v

/-- Python `k in d.keys()`. -/
def phasKey (d : JDict) (k : String) : Bool :=
  (plookup d k).isSome

/-- Python `d.keys()`, in insertion order. -/
def keysOf (d : JDict) : List String :=
  d.map Prod.fst

/-- Python exceptions.  The first group mirrors the classes declared in
`src/pixivpy/common/exceptions.py`, `src/pixivpy/api/exceptions.py` and
`src/pixivpy/auth/exceptions.py`; the second group mirrors the Python
built-in exceptions the embedded code can raise. -/
inductive PyErr where
  /-- `InvalidStatusCode` raised by the `request` decorator
  (`src/pixivpy/common/decors.py`): expected code and received code. -/
  | invalidStatusCode (expected got : Nat)
  /-- `InvalidJsonResponse` raised with a formatted message by the API
  functions in `src/pixivpy/api/api.py`. -/
  | invalidJsonResponse (msg : String)
  /-- `InvalidJsonResponse(ex)` raised by `src/pixivpy/auth/auth.py`,
  wrapping the exception caught by its blanket `except`. -/
  | invalidJsonWrapped (cause : PyErr)
  /-- `RetryError` from `src/pixivpy/common/decors.py` (declared, not
  reachable from the embedded paths). -/
  | retryError (msg : String)
  /-- `DataNotFound` from `src/pixivpy/common/validate.py` (declared, not
  raised by the embedded pixivpy code paths). -/
  | dataNotFound (msg : String)
  /-- `ApiError` from `src/pixivpy/api/exceptions.py` (declared, never
  raised by `src/pixivpy/api/api.py`). -/
  | apiError (msg : String)
  /-- `AuthError` from `src/pixivpy/auth/exceptions.py` (declared, never
  raised by `src/pixivpy/auth/auth.py`). -/
  | authError (msg : String)
  /-- Python built-in `KeyError`. -/
  | keyError (key : String)
  /-- Python built-in `TypeError`. -/
  | typeError (msg : String)
  /-- Python built-in `AttributeError`. -/
  | attributeError (msg : String)
  /-- Python `StopIteration`: a generator was pulled after finishing. -/
  | stopIteration

/-- Whether an exception is one of the classes the library itself declares
(all subclasses of `PixivpyError`), as opposed to a Python built-in. -/
def isPixivpyError : PyErr → Bool
  | PyErr.invalidStatusCode _ _ => true
  | PyErr.invalidJsonResponse _ => true
  | PyErr.invalidJsonWrapped _ => true
  | PyErr.retryError _ => true
  | PyErr.dataNotFound _ => true
  | PyErr.apiError _ => true
  | PyErr.authError _ => true
  | PyErr.keyError _ => false
  | PyErr.typeError _ => false
  | PyErr.attributeError _ => false
  | PyErr.stopIteration => false

/-! ## URL parsing (`urllib.parse`)

`_call_api` uses `urlparse` to take the query component of the continuation
URL and `parse_qs` to turn that query into a dict from parameter names to
lists of values.  Percent-decoding is modelled for ASCII escapes; the
multi-byte UTF-8 escapes of `unquote` are outside the scope of the inputs
considered here and are left literal. -/

/-- Value of a hexadecimal digit, if the character is one. -/
def hexDigitVal (c : Char) : Option Nat :=
  if '0' ≤ c ∧ c ≤ '9' then some (c.toNat - '0'.toNat)
  else if 'a' ≤ c ∧ c ≤ 'f' then some (c.toNat - 'a'.toNat + 10)
  else if 'A' ≤ c ∧ c ≤ 'F' then some (c.toNat - 'A'.toNat + 10)
  else none

/-- `urllib.parse.unquote_plus` on a character list: `+` becomes a space and
`%XX` (ASCII range) becomes the escaped character; malformed escapes stay
literal, as in Python. -/
def unquotePlusChars : List Char → List Char
  | [] => []
  | '+' :: rest => ' ' :: unquotePlusChars rest
  | '%' :: h1 :: h2 :: rest =>
    match hexDigitVal h1, hexDigitVal h2 with
    | some d1, some d2 =>
      let b := 16 * d1 + d2
      if b < 128 then Char.ofNat b :: unquotePlusChars rest
      else '%' :: h1 :: h2 :: unquotePlusChars rest
    | _, _ => '%' :: unquotePlusChars (h1 :: h2 :: rest)
  | c :: rest => c :: unquotePlusChars rest

/-- `urllib.parse.unquote_plus` on a string. -/
def unquotePlus (s : String) : String :=
  String.mk (unquotePlusChars s.data)

/-- Python `str.split(sep)` for a one-character separator, on the
character list: every separator occurrence cuts, empty pieces are kept. -/
def splitCharAux (sep : Char) : List Char → List Char → List (List Char)
  | [], acc => [acc.reverse]
  | c :: rest, acc =>
    if c = sep then acc.reverse :: splitCharAux sep rest []
    else splitCharAux sep rest (c :: acc)

/-- Python `str.split(sep)` for a one-character separator (all separators
used by `urlparse`/`parse_qs` here — `#`, `?`, `&`, `=` — are single
characters). -/
def splitChar (sep : Char) (s : String) : List String :=
  (splitCharAux sep s.data []).map String.mk

/-- Join strings with a separator (used to restore the remainder of a
`split(sep, 1)`-style first-occurrence split). -/
def joinSep (sep : String) : List String → String
  | [] => ""
  | [x] => x
  | x :: y :: rest => x ++ sep ++ joinSep sep (y :: rest)

/-- The query component of a URL, as computed by `urllib.parse.urlparse`:
the fragment (everything after the first `#`) is removed first, then the
query is everything after the first remaining `?`. -/
def queryOf (url : String) : String :=
  let noFragment := (splitChar '#' url).headD ""
  match splitChar '?' noFragment with
  | [] => ""
  | [_] => ""
  | _ :: tail => joinSep "?" tail

/-- `urllib.parse.parse_qsl` with default options: split the query on `&`,
keep only fields of the form `name=value` with a non-empty value
(`keep_blank_values=False`), and unquote names and values. -/
def parseQsl (query : String) : List (String × String) :=
  (splitChar '&' query).filterMap fun field =>
    match splitChar '=' field with
    | [] => none
    | [_] => none
    | name :: rest =>
      let value := joinSep "=" rest
      if value = "" then none
      else some (unquotePlus name, unquotePlus value)

/-- Insert one `parse_qsl` pair into the accumulating dict of
`parse_qs`: append the value if the name is already present. -/
def qsInsert (acc : List (String × List String)) (k v : String) :
    List (String × List String) :=
  match acc with
  | [] => [(k, [v])]
  | (k', vs) :: rest =>
    if k' = k then (k', vs ++ [v]) :: rest else (k', vs) :: qsInsert rest k v

/-- `urllib.parse.parse_qs`: parameter names mapped to their lists of
values, in first-appearance order. -/
def parseQs (query : String) : List (String × List String) :=
  (parseQsl query).foldl (fun acc kv => qsInsert acc kv.1 kv.2) []

/-- Dict lookup on a `parse_qs` result. -/
def qsLookup (qs : List (String × List String)) (k : String) :
    Option (List String) :=
  match qs with
  | [] => none
  | (k', vs) :: rest => if k' = k then some vs else qsLookup rest k

/-! ## The pagination engine (`_call_api`, `src/pixivpy/api/api.py` lines 26-87)

```
json = {'next_url': 'first_run'}
while json['next_url'] is not None or json['next_url'] != "":
    json = api_model(**kwargs)
    if 'next_url' not in json.keys():
        json['next_url'] = None
    if json['next_url'] is not None and json['next_url'] != "" and json['next_url'] != 'first_run':
        parsed = urlparse.urlparse(json['next_url'])
        for param_key in param_keys:
            kwargs[param_key] = urlparse.parse_qs(parsed.query)[param_key][0]
    yield json
```

The `except StopIteration: return` / `except InvalidStatusCode as ex:
raise ex` clauses of the source are identity re-raises and need no separate
modelling. -/

/-- Python truth value of `value is None`. -/
def jsonIsNull : Json → Bool
  | Json.null => true
  | _ => false

/-- Python truth value of `value == s` for a string literal `s`: a
non-string JSON value never equals a string. -/
def jsonEqStr (j : Json) (s : String) : Bool :=
  match j with
  | Json.str t => t == s
  | _ => false

/-- The `while` condition of `_call_api`, verbatim:
`json['next_url'] is not None or json['next_url'] != ""`. -/
def whileCond (nu : Json) : Bool :=
  (!jsonIsNull nu) || (!jsonEqStr nu "")

/-- Lines 75-76 of `src/pixivpy/api/api.py`: if the response lacks the
`next_url` key, insert it mapped to `None`. -/
def withNextUrl (p : Page) : Page :=
  if phasKey p "next_url" then p else pset p "next_url" Json.null

/-- The `for param_key in param_keys` loop of lines 81-82: overwrite each
configured kwarg with the first value of that query parameter.  Python's
`parse_qs(...)[param_key]` raises `KeyError` when the name is absent; the
`[0]` index never fails because `parse_qs` produces non-empty value lists
(the `IndexError` branch is unreachable). -/
def setParams (qs : List (String × List String)) :
    List String → Kwargs → Except PyErr Kwargs
  | [], kwargs => Except.ok kwargs
  | k :: rest, kwargs =>
    match qsLookup qs k with
    | none => Except.error (PyErr.keyError k)
    | some vs =>
      match vs with
      | [] => Except.error (PyErr.typeError "index 0 out of range")
      | v :: _ => setParams qs rest (pset kwargs k (Json.str v))

/-- Lines 79-82: guard `is not None and != "" and != 'first_run'`, then
parse the continuation URL and copy the configured parameters forward.  A
non-string `next_url` value would make `urlparse` fail with an
`AttributeError` in Python. -/
def kwUpdate (paramKeys : List String) (kwargs : Kwargs) (nu : Json) :
    Except PyErr Kwargs :=
  if jsonIsNull nu || jsonEqStr nu "" || jsonEqStr nu "first_run" then
    Except.ok kwargs
  else
    match nu with
    | Json.str u => setParams (parseQs (queryOf u)) paramKeys kwargs
    | _ => Except.error (PyErr.attributeError "next_url value has no query attribute")

/-- One iteration of the `while` body after the condition held: call the
(mocked) endpoint model with the current kwargs, normalise `next_url`, and
compute the kwargs for the following call.  Returns the page as it is about
to be yielded together with the updated kwargs, or the Python exception
raised before the yield. -/
def engineStep (model : Nat → Kwargs → Page) (paramKeys : List String)
    (i : Nat) (kwargs : Kwargs) : Except PyErr (Page × Kwargs) :=
  let page1 := withNextUrl (model i kwargs)
  match kwUpdate paramKeys kwargs (plookupD page1 "next_url" Json.null) with
  | Except.error e => Except.error e
  | Except.ok kw' => Except.ok (page1, kw')

/-- How a run of the generator ended. -/
inductive RunStatus where
  /-- The consumer stopped pulling (fuel exhausted); the generator is
  suspended and would run again on the next pull. -/
  | suspended
  /-- The `while` condition evaluated to false and the generator finished. -/
  | finishedLoop
  /-- A Python exception propagated out of the generator. -/
  | failed (e : PyErr)

/-- Observable outcome of pulling pages out of `_call_api`: the pages
yielded, the kwargs of each transport call in order (its length is the
number of transport calls issued), and how the run ended. -/
structure CallApiResult where
  pages : List Page
  callKwargs : List Kwargs
  status : RunStatus

/-- One unfolding of the `_call_api` loop, parametrised by the rest of the
run, shared between the fuel recursion and the proofs. -/
def callApiBody (model : Nat → Kwargs → Page) (paramKeys : List String)
    (kwargs : Kwargs) (prevNu : Json) (i : Nat)
    (rest : Kwargs → Json → Nat → CallApiResult) : CallApiResult :=
  if whileCond prevNu then
    match engineStep model paramKeys i kwargs with
    | Except.error e => ⟨[], [kwargs], RunStatus.failed e⟩
    | Except.ok (page1, kw') =>
      let r := rest kw' (plookupD page1 "next_url" Json.null) (i + 1)
      ⟨page1 :: r.pages, kwargs :: r.callKwargs, r.status⟩
  else ⟨[], [], RunStatus.finishedLoop⟩

/-- Run `_call_api` for at most `fuel` pulls, starting from loop state
`prevNu` (the `next_url` of the previous iteration's page) at call index
`i`. -/
def callApiAux (model : Nat → Kwargs → Page) (paramKeys : List String) :
    Kwargs → Json → Nat → Nat → CallApiResult
  | _, _, _, 0 => ⟨[], [], RunStatus.suspended⟩
  | kwargs, prevNu, i, fuel + 1 =>
    callApiBody model paramKeys kwargs prevNu i
      (fun kw nu j => callApiAux model paramKeys kw nu j fuel)

/-- Run `_call_api(api_model, kwargs, param_keys)` for at most `fuel`
pulls, from its initial state `json = {'next_url': 'first_run'}`. -/
def callApiRun (model : Nat → Kwargs → Page) (kwargs : Kwargs)
    (paramKeys : List String) (fuel : Nat) : CallApiResult :=
  callApiAux model paramKeys kwargs (Json.str "first_run") 0 fuel

/-! ## The item-level API generators (`src/pixivpy/api/api.py` lines 90-386)

Every endpoint function has the same shape:

```
call_api = _call_api(api_model=..., kwargs={...}, param_keys=[...])
for response in call_api:
    if list_key not in response.keys():
        raise InvalidJsonResponse(...)
    for item in response[list_key]:
        yield item
```
-/

/-- Python `for item in value`: lists yield their elements, strings their
characters (as one-character strings), dicts their keys; other values raise
`TypeError`. -/
def iterElems : Json → Except PyErr (List Json)
  | Json.arr xs => Except.ok xs
  | Json.str s => Except.ok (s.data.map fun c => Json.str (String.mk [c]))
  | Json.obj fields => Except.ok (fields.map fun kv => Json.str kv.1)
  | Json.null => Except.error (PyErr.typeError "NoneType object is not iterable")
  | Json.num _ => Except.error (PyErr.typeError "int object is not iterable")
  | Json.bool _ => Except.error (PyErr.typeError "bool object is not iterable")

/-- The message of the `InvalidJsonResponse` raised when a page lacks the
list key (quotes of the source's f-string omitted). -/
def invalidKeyMsg (listKey : String) (got : List String) : String :=
  "Cannot locate " ++ listKey ++ " key in the JSON response. Got keys: "
    ++ String.intercalate ", " got

/-- Observable outcome of pulling items out of an API endpoint generator:
the items yielded, the kwargs of each transport call in order, and how the
run ended. -/
structure FetchResult where
  items : List Json
  callKwargs : List Kwargs
  status : RunStatus

/-- One page-sized unfolding of an endpoint generator: one `_call_api`
iteration, then the wrapper's key check and the inner `for` loop over the
page's list. -/
def fetchBody (model : Nat → Kwargs → Page) (paramKeys : List String)
    (listKey : String) (kwargs : Kwargs) (prevNu : Json) (i : Nat)
    (rest : Kwargs → Json → Nat → FetchResult) : FetchResult :=
  if whileCond prevNu then
    match engineStep model paramKeys i kwargs with
    | Except.error e => ⟨[], [kwargs], RunStatus.failed e⟩
    | Except.ok (page1, kw') =>
      if phasKey page1 listKey then
        match iterElems (plookupD page1 listKey Json.null) with
        | Except.error e => ⟨[], [kwargs], RunStatus.failed e⟩
        | Except.ok xs =>
          let r := rest kw' (plookupD page1 "next_url" Json.null) (i + 1)
          ⟨xs ++ r.items, kwargs :: r.callKwargs, r.status⟩
      else
        ⟨[], [kwargs],
          RunStatus.failed (PyErr.invalidJsonResponse
            (invalidKeyMsg listKey (keysOf page1)))⟩
  else ⟨[], [], RunStatus.finishedLoop⟩

/-- Run an endpoint generator for at most `fuel` page pulls. -/
def fetchAux (model : Nat → Kwargs → Page) (paramKeys : List String)
    (listKey : String) : Kwargs → Json → Nat → Nat → FetchResult
  | _, _, _, 0 => ⟨[], [], RunStatus.suspended⟩
  | kwargs, prevNu, i, fuel + 1 =>
    fetchBody model paramKeys listKey kwargs prevNu i
      (fun kw nu j => fetchAux model paramKeys listKey kw nu j fuel)

/-- Run an endpoint generator (wrapper plus `_call_api`) from its initial
state for at most `fuel` page pulls. -/
def fetchRun (model : Nat → Kwargs → Page) (kwargs : Kwargs)
    (paramKeys : List String) (listKey : String) (fuel : Nat) : FetchResult :=
  fetchAux model paramKeys listKey kwargs (Json.str "first_run") 0 fuel

/-! ## Endpoint configurations (`src/pixivpy/api/api.py`) -/

/-- The kwargs dict built by `get_bookmarks` (lines 154-164). -/
def get_bookmarks_kwargs (user_id restrict tag auth_token : Json) : Kwargs :=
  [("user_id", user_id), ("restrict", restrict),
   ("max_bookmark_id", Json.null), ("tag", tag), ("auth_token", auth_token)]

/-- The continuation parameter names of `get_bookmarks`. -/
def get_bookmarks_param_keys : List String := ["max_bookmark_id"]

/-- The list key of `get_bookmarks`. -/
def get_bookmarks_list_key : String := "illusts"

/-- `get_bookmarks` with a mocked endpoint model, as in the unit tests. -/
def get_bookmarks_run (model : Nat → Kwargs → Page)
    (user_id restrict tag auth_token : Json) (fuel : Nat) : FetchResult :=
  fetchRun model (get_bookmarks_kwargs user_id restrict tag auth_token)
    get_bookmarks_param_keys get_bookmarks_list_key fuel

/-- The kwargs dict built by `get_bookmark_tags` (lines 112-121). -/
def get_bookmark_tags_kwargs (user_id restrict offset auth_token : Json) :
    Kwargs :=
  [("user_id", user_id), ("restrict", restrict), ("offset", offset),
   ("auth_token", auth_token)]

/-- The continuation parameter names of `get_bookmark_tags`. -/
def get_bookmark_tags_param_keys : List String := ["offset"]

/-! ## `get_recommended` and Python keyword binding

`src/pixivpy/api/api.py` lines 248-260 call
`models.get_recommended(**kwargs)` with kwargs keys
`include_ranking_illusts` / `include_privacy_policy`, while the parameters
of `models.get_recommended` (`src/pixivpy/api/models.py` lines 110-112) are
named `include_ranked` / `include_privacy`.  The model function is wrapped
by the `request` decorator whose `wrapper(*args, **kwargs)` accepts any
keywords, so the binding error surfaces when the wrapper invokes the
decorated function — before `requests.Session().send` is reached. -/

/-- The parameter names of `models.get_recommended`
(`src/pixivpy/api/models.py` lines 110-112); none has a default. -/
def models_get_recommended_params : List String :=
  ["filter", "include_ranked", "include_privacy",
   "min_bookmark_id_for_recent_illust", "max_bookmark_id_for_recommend",
   "offset", "auth_token"]

/-- The kwargs dict built by `api.get_recommended`
(`src/pixivpy/api/api.py` lines 250-258). -/
def get_recommended_kwargs
    (filt include_ranking_illusts include_privacy_policy offset auth_token :
      Json) : Kwargs :=
  [("filter", filt),
   ("include_ranking_illusts", include_ranking_illusts),
   ("include_privacy_policy", include_privacy_policy),
   ("min_bookmark_id_for_recent_illust", Json.null),
   ("max_bookmark_id_for_recommend", Json.null),
   ("offset", offset), ("auth_token", auth_token)]

/-- Python call binding of `f(**kwargs)` for a function with the given
parameter names, no defaults and no `**kwargs`: any unexpected keyword, or
any missing parameter, raises `TypeError` before the body runs. -/
def bindKwargs (fname : String) (params : List String) (kwargs : Kwargs) :
    Except PyErr Unit :=
  match kwargs.find? (fun kv => !params.contains kv.1) with
  | some kv =>
    Except.error (PyErr.typeError
      (fname ++ "() got an unexpected keyword argument " ++ kv.1))
  | none =>
    match params.find? (fun p => !(keysOf kwargs).contains p) with
    | some p =>
      Except.error (PyErr.typeError
        (fname ++ "() missing a required argument " ++ p))
    | none => Except.ok ()

/-- `models.get_recommended(**kwargs)` through the `request` decorator:
bind the keywords, and only on success issue the transport send.  The
second component counts transport requests. -/
def get_recommended_model_call (kwargs : Kwargs)
    (transport : Kwargs → Page) : Except PyErr Page × Nat :=
  match bindKwargs "get_recommended" models_get_recommended_params kwargs with
  | Except.error e => (Except.error e, 0)
  | Except.ok _ => (Except.ok (transport kwargs), 1)

/-- The first pull of the `api.get_recommended` generator: the `while`
condition is checked on the sentinel `{'next_url': 'first_run'}` and then
`api_model(**kwargs)` is invoked. -/
def get_recommended_first_pull
    (filt include_ranking_illusts include_privacy_policy offset auth_token :
      Json) (transport : Kwargs → Page) : Except PyErr Page × Nat :=
  if whileCond (Json.str "first_run") then
    get_recommended_model_call
      (get_recommended_kwargs filt include_ranking_illusts
        include_privacy_policy offset auth_token) transport
  else (Except.error PyErr.stopIteration, 0)

/-! ## Token lifecycle (`src/pixivpy/common/data.py`, `src/pixivpy/auth/auth.py`)

Time is modelled as an explicit integer instant `now` standing for
`time.time()`; the code reads the clock twice (in the expiry check and in
`AuthToken.__init__`), which the embedding collapses to a single instant.
The mocked token-exchange transport is a status code plus a JSON body, as
produced by the `request` decorator. -/

/-- `AuthToken` (`src/pixivpy/common/data.py` lines 7-25).  The token
fields hold whatever JSON values the response carried — the constructor
performs no type check on them. -/
structure AuthToken where
  access_token : Json
  refresh_token : Json
  ttl : Int
  expires_at : Int

/-- `AuthToken.__init__`: `expires_at` defaults to
`int(time.time()) + ttl`.  The tuple-indexing trick of line 25 evaluates
`int(time.time()) + ttl` in every case, so a non-integer `ttl` raises
`TypeError` even when `expires_at` is supplied.  (Python would accept a
bool `ttl` because `bool` is an `int` subclass; no embedded code path
passes one.) -/
def mkAuthToken (now : Int) (access refresh ttl : Json)
    (expiresAt : Option Int) : Except PyErr AuthToken :=
  match ttl with
  | Json.num t =>
    Except.ok
      { access_token := access, refresh_token := refresh, ttl := t,
        expires_at :=
          match expiresAt with
          | none => now + t
          | some e => e }
  | _ => Except.error (PyErr.typeError "unsupported operand types for +")

/-- Python subscript `value[k]` with a string key: dicts look the key up
(`KeyError` when absent), any other value raises `TypeError`. -/
def pyIndex : Json → String → Except PyErr Json
  | Json.obj fields, k =>
    match plookup fields k with
    | some v => Except.ok v
    | none => Except.error (PyErr.keyError k)
  | _, _ => Except.error (PyErr.typeError "value is not subscriptable by str")

/-- The `request(expected_code=200)` decorator around
`models.get_auth_token` (`src/pixivpy/common/decors.py` lines 28-43): a
non-200 status raises `InvalidStatusCode`, otherwise the parsed JSON body
is returned. -/
def models_get_auth_token (status : Nat) (body : Json) : Except PyErr Json :=
  if status = 200 then Except.ok body
  else Except.error (PyErr.invalidStatusCode 200 status)

/-- The `request(expected_code=200)` decorator around
`models.renew_auth_token`, identical transport contract. -/
def models_renew_auth_token (status : Nat) (body : Json) : Except PyErr Json :=
  if status = 200 then Except.ok body
  else Except.error (PyErr.invalidStatusCode 200 status)

/-- The token extraction shared by `get_auth_token` and
`renew_auth_token` (`src/pixivpy/auth/auth.py` lines 39-43 and 73-77):
`AuthToken(json['response']['access_token'], json['response']['refresh_token'],
ttl=json['response']['expires_in'])`. -/
def authTokenFromResponse (now : Int) (json : Json) : Except PyErr AuthToken :=
  pyIndex json "response" >>= fun resp =>
  pyIndex resp "access_token" >>= fun access =>
  pyIndex resp "refresh_token" >>= fun refresh =>
  pyIndex resp "expires_in" >>= fun ttl =>
  mkAuthToken now access refresh ttl none

/-- `auth.get_auth_token` (`src/pixivpy/auth/auth.py` lines 19-45): the
model call and the extraction run inside `try`, and any exception is
re-raised as `InvalidJsonResponse(ex)`. -/
def get_auth_token (now : Int) (status : Nat) (body : Json) :
    Except PyErr AuthToken :=
  let attempt : Except PyErr AuthToken :=
    models_get_auth_token status body >>= fun json =>
    authTokenFromResponse now json
  match attempt with
  | Except.ok t => Except.ok t
  | Except.error e => Except.error (PyErr.invalidJsonWrapped e)

/-- `auth.renew_auth_token` (`src/pixivpy/auth/auth.py` lines 48-80): when
`time.time() >= auth_token.expires_at` perform the refresh exchange and
build a new token, otherwise return the input token unchanged.  The second
component counts refresh network calls.  The embedding is value-based: the
source also constructs a fresh `AuthToken` and leaves the argument object
untouched. -/
def renew_auth_token (now : Int) (status : Nat) (body : Json)
    (auth_token : AuthToken) : Except PyErr AuthToken × Nat :=
  if auth_token.expires_at ≤ now then
    let attempt : Except PyErr AuthToken :=
      models_renew_auth_token status body >>= fun json =>
      authTokenFromResponse now json
    match attempt with
    | Except.ok t => (Except.ok t, 1)
    | Except.error e => (Except.error (PyErr.invalidJsonWrapped e), 1)
  else (Except.ok auth_token, 0)

/-- A well-formed token-exchange response body:
`{"response": {"access_token": a, "refresh_token": r, "expires_in": t}}`. -/
def authRespBody (a r : String) (t : Int) : Json :=
  Json.obj [("response",
    Json.obj [("access_token", Json.str a), ("refresh_token", Json.str r),
              ("expires_in", Json.num t)])]

/-! ## Concrete mocked transports used by the per-claim theorems -/

/-- A concrete record item. -/
def jA : Json := Json.obj [("id", Json.num 1)]

/-- A concrete record item. -/
def jB : Json := Json.obj [("id", Json.num 2)]

/-- A concrete record item. -/
def jC : Json := Json.obj [("id", Json.num 3)]

/-- `get_bookmarks` kwargs with all caller-supplied values `None`. -/
def nullBookmarksKwargs : Kwargs :=
  get_bookmarks_kwargs Json.null Json.null Json.null Json.null

/-- `get_bookmark_tags` kwargs with all caller-supplied values `None`. -/
def nullTagsKwargs : Kwargs :=
  get_bookmark_tags_kwargs Json.null Json.null Json.null Json.null

/-- A terminal page: one item, `next_url` mapped to `None`. -/
def c1_page : Page := [("illusts", Json.arr [jA]), ("next_url", Json.null)]

/-- A mocked model constantly returning the terminal page, like a
`unittest.mock` with a fixed `return_value`. -/
def c1_model : Nat → Kwargs → Page := fun _ _ => c1_page

/-- A page whose list key holds a non-sequence (an int). -/
def c2_int_page : Page := [("illusts", Json.num 5), ("next_url", Json.null)]

/-- A page whose list key holds a string (iterable, but not a list). -/
def c2_str_page : Page := [("illusts", Json.str "xy"), ("next_url", Json.null)]

/-- A page lacking the `illusts` list key. -/
def c2_missing_page : Page :=
  [("bookmark_tags", Json.arr []), ("next_url", Json.null)]

/-- A page lacking the `illusts` list key whose continuation URL carries
the configured bookmarks parameter. -/
def c2_urlcont_page : Page :=
  [("bookmark_tags", Json.arr []),
   ("next_url", Json.str "x?max_bookmark_id=7")]

/-- A page lacking the `illusts` list key whose continuation URL lacks
the configured bookmarks parameter. -/
def c2_badcont_page : Page :=
  [("bookmark_tags", Json.arr []), ("next_url", Json.str "x?foo=1")]

/-- First page of the two-page chain of property P4: items A and B, plus a
continuation URL carrying the bookmarks continuation parameter. -/
def c3_page1 : Page :=
  [("illusts", Json.arr [jA, jB]),
   ("next_url", Json.str "x?max_bookmark_id=2")]

/-- Second page of the P4 chain: item C, `next_url` mapped to `None`. -/
def c3_page2 : Page := [("illusts", Json.arr [jC]), ("next_url", Json.null)]

/-- The scripted two-page transport of P4: the first call returns page 1,
every later call returns page 2. -/
def c3_model : Nat → Kwargs → Page :=
  fun i _ => if i = 0 then c3_page1 else c3_page2

/-- A first page whose continuation URL carries `offset=42` (property
P2). -/
def c4_page : Page :=
  [("bookmark_tags", Json.arr []), ("next_url", Json.str "x?offset=42")]

/-- Scripted transport for P2: first call returns the `offset=42` page,
later calls a terminal page. -/
def c4_model : Nat → Kwargs → Page :=
  fun i _ =>
    if i = 0 then c4_page
    else [("bookmark_tags", Json.arr []), ("next_url", Json.null)]

/-- A page whose continuation URL lacks the configured `offset`
parameter. -/
def c5_page : Page :=
  [("bookmark_tags", Json.arr []), ("next_url", Json.str "x?foo=1")]

/-- A page whose continuation URL lacks `offset` (witness variant). -/
def c5_page2 : Page :=
  [("bookmark_tags", Json.arr []), ("next_url", Json.str "x?bar=2")]

/-- An empty-list page whose continuation field is `None`. -/
def c6_nullcont_page : Page :=
  [("illusts", Json.arr []), ("next_url", Json.null)]

/-- An empty-list page with a populated continuation URL. -/
def c6_empty_page : Page :=
  [("illusts", Json.arr []),
   ("next_url", Json.str "x?max_bookmark_id=9")]

/-- Scripted transport: empty page with continuation first, then a page
with one item. -/
def c6_model : Nat → Kwargs → Page :=
  fun i _ => if i = 0 then c6_empty_page else c3_page2

/-- An auth token that expires at instant 100. -/
def c7_tok : AuthToken := ⟨Json.str "A0", Json.str "R0", 3600, 100⟩

/-- A response body whose `access_token` is mis-typed (an int). -/
def c8_bad_access_body : Json :=
  Json.obj [("response",
    Json.obj [("access_token", Json.num 5), ("refresh_token", Json.str "R1"),
              ("expires_in", Json.num 3600)])]

/-- A response body lacking `refresh_token`. -/
def c8_missing_refresh_body : Json :=
  Json.obj [("response",
    Json.obj [("access_token", Json.str "A1"),
              ("expires_in", Json.num 3600)])]

/-- A response body whose `expires_in` is mis-typed (a string). -/
def c8_bad_ttl_body : Json :=
  Json.obj [("response",
    Json.obj [("access_token", Json.str "A1"),
              ("refresh_token", Json.str "R1"),
              ("expires_in", Json.str "3600")])]

/-- A response that omits `next_url` entirely. -/
def c10_page : Page := [("illusts", Json.arr [])]

/-! ## Helper lemmas -/

/-- The `while` condition of `_call_api` is true for every `next_url`
value: `v is not None` and `v != ""` cannot both be false. -/
theorem whileCond_eq_true (v : Json) : whileCond v = true := by
  cases v <;> rfl

/-- Looking up the key just set returns the new value. -/
theorem plookup_pset_self (d : JDict) (k : String) (v : Json) :
    plookup (pset d k v) k = some v := by
  induction d with
  | nil => simp [pset, plookup]
  | cons kv rest ih =>
    obtain ⟨k', v'⟩ := kv
    by_cases h : k' = k
    · subst h; simp [pset, plookup]
    · simp [pset, plookup, h, ih]

/-- Setting one key leaves lookups of other keys unchanged. -/
theorem plookup_pset_ne (d : JDict) (k k' : String) (v : Json)
    (h : k' ≠ k) : plookup (pset d k v) k' = plookup d k' := by
  induction d with
  | nil => simp [pset, plookup, Ne.symm h]
  | cons kv rest ih =>
    obtain ⟨ek, ev⟩ := kv
    by_cases hek : ek = k
    · subst hek
      simp [pset, plookup, Ne.symm h]
    · simp [pset, plookup, hek, ih]

/-- A dict has the key just set. -/
theorem phasKey_pset_self (d : JDict) (k : String) (v : Json) :
    phasKey (pset d k v) k = true := by
  simp [phasKey, plookup_pset_self]

/-- After `_call_api` normalises a page, the `next_url` key is present. -/
theorem phasKey_withNextUrl (p : Page) :
    phasKey (withNextUrl p) "next_url" = true := by
  unfold withNextUrl
  by_cases h : phasKey p "next_url"
  · simp [h]
  · simp [h, phasKey_pset_self]

/-- Normalisation does nothing to a page that already has `next_url`. -/
theorem withNextUrl_of_hasKey (p : Page)
    (h : phasKey p "next_url" = true) : withNextUrl p = p := by
  simp [withNextUrl, h]

/-- A page produced by a successful engine step is the normalised model
response. -/
theorem engineStep_ok_page (model : Nat → Kwargs → Page)
    (paramKeys : List String) (i : Nat) (kwargs : Kwargs) (page1 : Page)
    (kw' : Kwargs)
    (h : engineStep model paramKeys i kwargs = Except.ok (page1, kw')) :
    page1 = withNextUrl (model i kwargs) := by
  simp only [engineStep] at h
  cases hk : kwUpdate paramKeys kwargs
      (plookupD (withNextUrl (model i kwargs)) "next_url" Json.null) with
  | error e => rw [hk] at h; simp at h
  | ok k2 => rw [hk] at h; simp at h; exact h.1.symm

/-- With a string continuation value that is neither empty nor the
sentinel, the kwargs update is exactly the `setParams` loop. -/
theorem kwUpdate_str (paramKeys : List String) (kwargs : Kwargs)
    (u : String) (h1 : u ≠ "") (h2 : u ≠ "first_run") :
    kwUpdate paramKeys kwargs (Json.str u)
      = setParams (parseQs (queryOf u)) paramKeys kwargs := by
  simp [kwUpdate, jsonIsNull, jsonEqStr, beq_eq_false_iff_ne.mpr h1,
    beq_eq_false_iff_ne.mpr h2]

/-- An engine step on a page that carries a real continuation URL: the
page passes through unchanged and the kwargs result is the `setParams`
outcome. -/
theorem engineStep_of_next_url (model : Nat → Kwargs → Page)
    (paramKeys : List String) (i : Nat) (kwargs : Kwargs) (u : String)
    (hnu : plookup (model i kwargs) "next_url" = some (Json.str u))
    (h1 : u ≠ "") (h2 : u ≠ "first_run") :
    engineStep model paramKeys i kwargs
      = Except.map (fun kw' => (model i kwargs, kw'))
          (setParams (parseQs (queryOf u)) paramKeys kwargs) := by
  have hhk : phasKey (model i kwargs) "next_url" = true := by
    simp [phasKey, hnu]
  have hw : withNextUrl (model i kwargs) = model i kwargs :=
    withNextUrl_of_hasKey _ hhk
  have hD : plookupD (model i kwargs) "next_url" Json.null = Json.str u := by
    simp [plookupD, hnu]
  simp only [engineStep, hw, hD, kwUpdate_str paramKeys kwargs u h1 h2]
  cases h : setParams (parseQs (queryOf u)) paramKeys kwargs <;>
    simp [h, Except.map]

/-- One further pull of `_call_api` from any live state issues exactly one
transport call, whatever the model returns. -/
theorem callApiAux_one_call (model : Nat → Kwargs → Page)
    (paramKeys : List String) (kwargs : Kwargs) (prevNu : Json) (i : Nat)
    (hw : whileCond prevNu = true) :
    (callApiAux model paramKeys kwargs prevNu i 1).callKwargs = [kwargs] := by
  have h1 : callApiAux model paramKeys kwargs prevNu i 1
      = callApiBody model paramKeys kwargs prevNu i
          (fun kw nu j => callApiAux model paramKeys kw nu j 0) := rfl
  rw [h1]
  unfold callApiBody
  rw [hw]
  cases hstep : engineStep model paramKeys i kwargs with
  | error e => simp [hstep]
  | ok pk =>
    obtain ⟨p, kw2⟩ := pk
    simp [hstep, callApiAux]

/-- One further pull of an endpoint generator from any live state issues
exactly one transport call, whatever the model returns. -/
theorem fetchAux_one_call (model : Nat → Kwargs → Page)
    (paramKeys : List String) (listKey : String) (kwargs : Kwargs)
    (prevNu : Json) (i : Nat) (hw : whileCond prevNu = true) :
    (fetchAux model paramKeys listKey kwargs prevNu i 1).callKwargs
      = [kwargs] := by
  have h1 : fetchAux model paramKeys listKey kwargs prevNu i 1
      = fetchBody model paramKeys listKey kwargs prevNu i
          (fun kw nu j => fetchAux model paramKeys listKey kw nu j 0) := rfl
  rw [h1]
  unfold fetchBody
  rw [hw]
  cases hstep : engineStep model paramKeys i kwargs with
  | error e => simp [hstep]
  | ok pk =>
    obtain ⟨p, kw2⟩ := pk
    by_cases hk : phasKey p listKey
    · cases hit : iterElems (plookupD p listKey Json.null) with
      | error e => simp [hstep, hk, hit]
      | ok xs => simp [hstep, hk, hit, fetchAux]
    · simp [hstep, hk]

/-- The `setParams` loop succeeds when every configured name is present in
the parsed query, and then maps every configured name to the first value
of its query parameter, leaving other kwargs untouched. -/
theorem setParams_all_present (qs : List (String × List String)) :
    ∀ (pks : List String) (kwargs : Kwargs),
      (∀ k ∈ pks, ∃ v vs, qsLookup qs k = some (v :: vs)) →
      ∃ kw', setParams qs pks kwargs = Except.ok kw'
        ∧ (∀ k v vs, k ∈ pks → qsLookup qs k = some (v :: vs) →
            plookup kw' k = some (Json.str v))
        ∧ (∀ k, k ∉ pks → plookup kw' k = plookup kwargs k) := by
  intro pks
  induction pks with
  | nil =>
    intro kwargs _
    exact ⟨kwargs, rfl, by intro k v vs hk _; simp at hk, fun k _ => rfl⟩
  | cons k0 rest ih =>
    intro kwargs hall
    obtain ⟨v0, vs0, hv0⟩ := hall k0 (by simp)
    obtain ⟨kw', hset, hin, hout⟩ := ih (pset kwargs k0 (Json.str v0))
      (fun k hk => hall k (by simp [hk]))
    refine ⟨kw', ?_, ?_, ?_⟩
    · simp [setParams, hv0, hset]
    · intro k v vs hk hq
      rcases List.mem_cons.mp hk with h | h
      · subst h
        by_cases hr : k ∈ rest
        · exact hin k v vs hr hq
        · have hv : v0 = v := by
            rw [hv0] at hq; simp at hq; exact hq.1
          rw [hout k hr, ← hv, plookup_pset_self]
      · exact hin k v vs h hq
    · intro k hk
      have hr : k ∉ rest := fun h => hk (by simp [h])
      have hk0 : k ≠ k0 := fun h => hk (by simp [h])
      rw [hout k hr, plookup_pset_ne kwargs k0 k (Json.str v0) hk0]

/-- Every page yielded by `_call_api`, from any loop state, carries the
`next_url` key. -/
theorem callApiAux_pages_next_url (model : Nat → Kwargs → Page)
    (paramKeys : List String) :
    ∀ (fuel : Nat) (kwargs : Kwargs) (prevNu : Json) (i : Nat),
      ∀ p ∈ (callApiAux model paramKeys kwargs prevNu i fuel).pages,
        phasKey p "next_url" = true := by
  intro fuel
  induction fuel with
  | zero =>
    intro kwargs prevNu i p hp
    simp [callApiAux] at hp
  | succ n ih =>
    intro kwargs prevNu i p hp
    have h1 : callApiAux model paramKeys kwargs prevNu i (n + 1)
        = callApiBody model paramKeys kwargs prevNu i
            (fun kw nu j => callApiAux model paramKeys kw nu j n) := rfl
    rw [h1] at hp
    unfold callApiBody at hp
    rw [whileCond_eq_true prevNu] at hp
    cases hstep : engineStep model paramKeys i kwargs with
    | error e => rw [hstep] at hp; simp at hp
    | ok pk =>
      obtain ⟨page1, kw'⟩ := pk
      rw [hstep] at hp
      simp at hp
      rcases hp with h | h
      · have hpage : page1 = withNextUrl (model i kwargs) :=
          engineStep_ok_page model paramKeys i kwargs page1 kw' hstep
        rw [h, hpage]
        exact phasKey_withNextUrl _
      · exact ih kw' _ _ p h

/-! ## Claim theorems -/

/-- Claim C1 (code bug).  The claim says that a page whose `next_url` is
absent, null or empty makes the fetch generator yield that page's items
and stop, with no further transport call on subsequent pulls.  The code
violates this: the `while` condition of `_call_api`
(`json['next_url'] is not None or json['next_url'] != ""`) is true for
every value, so after yielding the terminal page
`{'illusts': [jA], 'next_url': None}` the next pull issues a second
transport call with unchanged kwargs and yields the same page again —
contradicting the function's own docstring ("continues this loop until
the next_url key is mapped to an empty string, null value, or the key
does not exist") and the inline comment ("set to None to stop next
iteration"). -/
theorem c1_termination_code_bug :
    (∀ v, whileCond v = true)
    ∧ (callApiRun c1_model nullBookmarksKwargs get_bookmarks_param_keys 2).pages
        = [c1_page, c1_page]
    ∧ (callApiRun c1_model nullBookmarksKwargs get_bookmarks_param_keys 2).callKwargs
        = [nullBookmarksKwargs, nullBookmarksKwargs] :=
  ⟨whileCond_eq_true, rfl, rfl⟩

/-- Claim C3 (code bug).  On the exact two-page chain of property P4, the
first three items pulled are `[A, B, C]` in server and continuation order
(the claim's order statement holds as a prefix), but the stream does not
stop after C: the loop-condition bug of `_call_api` makes a third
transport call, and C is yielded again — the produced sequence is not
exactly `[A, B, C]`. -/
theorem c3_flattening_code_bug :
    (get_bookmarks_run c3_model Json.null Json.null Json.null Json.null 2).items
        = [jA, jB, jC]
    ∧ (get_bookmarks_run c3_model Json.null Json.null Json.null Json.null 3).items
        = [jA, jB, jC, jC]
    ∧ (get_bookmarks_run c3_model Json.null Json.null Json.null Json.null 3).callKwargs.length
        = 3 :=
  ⟨rfl, rfl, rfl⟩

/-- Claim C10 (confirmed).  Every page dict yielded by `_call_api`
contains the key `next_url`: when the model response omits it, the engine
inserts `next_url = None` before yielding. -/
theorem c10_pages_always_have_next_url (model : Nat → Kwargs → Page)
    (kwargs : Kwargs) (paramKeys : List String) (fuel : Nat) :
    ∀ p ∈ (callApiRun model kwargs paramKeys fuel).pages,
      phasKey p "next_url" = true :=
  callApiAux_pages_next_url model paramKeys fuel kwargs
    (Json.str "first_run") 0

/-- Witness for C10: a model response without `next_url` is yielded with
`next_url` inserted and mapped to `None`, and the theorem applies to it. -/
theorem c10_witness :
    phasKey [("illusts", Json.arr []), ("next_url", Json.null)] "next_url"
      = true := by
  have hmem : [("illusts", Json.arr []), ("next_url", Json.null)]
      ∈ (callApiRun (fun _ _ => c10_page) nullTagsKwargs
          get_bookmark_tags_param_keys 1).pages := by
    have hpages : (callApiRun (fun _ _ => c10_page) nullTagsKwargs
        get_bookmark_tags_param_keys 1).pages
        = [[("illusts", Json.arr []), ("next_url", Json.null)]] := rfl
    rw [hpages]
    exact List.mem_singleton_self _
  exact c10_pages_always_have_next_url (fun _ _ => c10_page)
    nullTagsKwargs get_bookmark_tags_param_keys 1 _ hmem

/-- Claim C9 (confirmed).  For every argument values and every transport,
the first pull of `api.get_recommended` raises `TypeError` — the kwargs
dict uses the names `include_ranking_illusts` / `include_privacy_policy`
while the parameters of `models.get_recommended` are `include_ranked` /
`include_privacy` — and zero transport requests are issued (the binding
failure happens before the `request` decorator sends anything). -/
theorem c9_get_recommended_type_error
    (filt include_ranking_illusts include_privacy_policy offset auth_token :
      Json) (transport : Kwargs → Page) :
    get_recommended_first_pull filt include_ranking_illusts
        include_privacy_policy offset auth_token transport
      = (Except.error (PyErr.typeError
          ("get_recommended() got an unexpected keyword argument "
            ++ "include_ranking_illusts")), 0) :=
  rfl

/-- Counterexample for C2.  The claim says a page whose list key holds a
non-sequence value fails with the invalid-response-shape error before any
item is yielded.  The code only checks key presence: with
`illusts = 5` the failure is a Python `TypeError` (not
`InvalidJsonResponse`), and with `illusts = "xy"` no error is raised at
all — the string's characters are yielded as items. -/
theorem c2_counterexample :
    get_bookmarks_run (fun _ _ => c2_int_page) Json.null Json.null
        Json.null Json.null 1
      = ⟨[], [nullBookmarksKwargs],
          RunStatus.failed (PyErr.typeError "int object is not iterable")⟩
    ∧ (get_bookmarks_run (fun _ _ => c2_str_page) Json.null Json.null
        Json.null Json.null 1).items
      = [Json.str "x", Json.str "y"] :=
  ⟨rfl, rfl⟩

/-- Claim C2 (corrected).  The amended claim: when a page does not
*contain* the endpoint's list key, the fetch yields no item of that page
and makes no further transport call, however many more pulls the
consumer attempts.  When the page's continuation processing inside
`_call_api` succeeds — the continuation field is absent, null, empty or
the sentinel, or it is a URL whose parsed query contains every
configured parameter — the failure is `InvalidJsonResponse`, naming the
missing key and the keys present.  When the continuation processing
itself raises (a configured parameter missing from the URL's query, see
C5), that `KeyError` happens inside `_call_api` before the yield, so it
takes precedence and the page is never handed to the wrapper's check.  A
present value of non-sequence type is not validated (counterexample).
Stated for the first page of a run; the wrapper runs the identical check
on every page. -/
theorem c2_missing_list_key (model : Nat → Kwargs → Page) (kwargs : Kwargs)
    (paramKeys : List String) (listKey : String) (fuel : Nat)
    (hmiss : phasKey (withNextUrl (model 0 kwargs)) listKey = false) :
    (∀ kw', kwUpdate paramKeys kwargs
        (plookupD (withNextUrl (model 0 kwargs)) "next_url" Json.null)
        = Except.ok kw' →
      fetchRun model kwargs paramKeys listKey (fuel + 1)
        = ⟨[], [kwargs],
            RunStatus.failed (PyErr.invalidJsonResponse
              (invalidKeyMsg listKey
                (keysOf (withNextUrl (model 0 kwargs)))))⟩)
    ∧ (∀ e, kwUpdate paramKeys kwargs
        (plookupD (withNextUrl (model 0 kwargs)) "next_url" Json.null)
        = Except.error e →
      fetchRun model kwargs paramKeys listKey (fuel + 1)
        = ⟨[], [kwargs], RunStatus.failed e⟩) := by
  have h1 : fetchRun model kwargs paramKeys listKey (fuel + 1)
      = fetchBody model paramKeys listKey kwargs (Json.str "first_run") 0
          (fun kw nu j => fetchAux model paramKeys listKey kw nu j fuel) :=
    rfl
  constructor
  · intro kw' hupd
    have hstep : engineStep model paramKeys 0 kwargs
        = Except.ok (withNextUrl (model 0 kwargs), kw') := by
      simp only [engineStep, hupd]
    rw [h1]
    unfold fetchBody
    rw [whileCond_eq_true, hstep]
    simp [hmiss]
  · intro e hupd
    have hstep : engineStep model paramKeys 0 kwargs = Except.error e := by
      simp only [engineStep, hupd]
    rw [h1]
    unfold fetchBody
    rw [whileCond_eq_true, hstep]
    simp

/-- Witness for C2, covering all three continuation shapes on the
`get_bookmarks` configuration (list key `illusts`): a missing-list-key
page with a null continuation, and one with a well-formed continuation
URL, each fail with `InvalidJsonResponse` after one transport call and
zero items; one whose continuation URL lacks the configured
`max_bookmark_id` fails with the preceding `KeyError` instead. -/
theorem c2_witness :
    fetchRun (fun _ _ => c2_missing_page) nullBookmarksKwargs
        get_bookmarks_param_keys get_bookmarks_list_key 3
      = ⟨[], [nullBookmarksKwargs],
          RunStatus.failed (PyErr.invalidJsonResponse
            (invalidKeyMsg "illusts" ["bookmark_tags", "next_url"]))⟩
    ∧ fetchRun (fun _ _ => c2_urlcont_page) nullBookmarksKwargs
        get_bookmarks_param_keys get_bookmarks_list_key 3
      = ⟨[], [nullBookmarksKwargs],
          RunStatus.failed (PyErr.invalidJsonResponse
            (invalidKeyMsg "illusts" ["bookmark_tags", "next_url"]))⟩
    ∧ fetchRun (fun _ _ => c2_badcont_page) nullBookmarksKwargs
        get_bookmarks_param_keys get_bookmarks_list_key 3
      = ⟨[], [nullBookmarksKwargs],
          RunStatus.failed (PyErr.keyError "max_bookmark_id")⟩ :=
  ⟨(c2_missing_list_key (fun _ _ => c2_missing_page) nullBookmarksKwargs
      get_bookmarks_param_keys get_bookmarks_list_key 2 rfl).1
      nullBookmarksKwargs rfl,
   (c2_missing_list_key (fun _ _ => c2_urlcont_page) nullBookmarksKwargs
      get_bookmarks_param_keys get_bookmarks_list_key 2 rfl).1
      (pset nullBookmarksKwargs "max_bookmark_id" (Json.str "7")) rfl,
   (c2_missing_list_key (fun _ _ => c2_badcont_page) nullBookmarksKwargs
      get_bookmarks_param_keys get_bookmarks_list_key 2 rfl).2
      (PyErr.keyError "max_bookmark_id") rfl⟩

/-- Claim C4 (confirmed).  When the first page's continuation field holds
a string that is neither empty nor the internal sentinel, and every
configured continuation-parameter name appears in the URL's parsed query,
the engine overwrites each such kwarg with the first value of that query
parameter, and the second transport call is made with exactly those
updated kwargs. -/
theorem c4_continuation_propagation (model : Nat → Kwargs → Page)
    (kwargs : Kwargs) (paramKeys : List String) (u k v : String)
    (vs : List String)
    (hnu : plookup (model 0 kwargs) "next_url" = some (Json.str u))
    (h1 : u ≠ "") (h2 : u ≠ "first_run")
    (hall : ∀ k' ∈ paramKeys,
      ∃ v' vs', qsLookup (parseQs (queryOf u)) k' = some (v' :: vs'))
    (hk : k ∈ paramKeys)
    (hv : qsLookup (parseQs (queryOf u)) k = some (v :: vs)) :
    ∃ kw', (callApiRun model kwargs paramKeys 2).callKwargs = [kwargs, kw']
      ∧ plookup kw' k = some (Json.str v) := by
  obtain ⟨kw', hset, hin, _⟩ :=
    setParams_all_present (parseQs (queryOf u)) paramKeys kwargs hall
  have hstep : engineStep model paramKeys 0 kwargs
      = Except.ok (model 0 kwargs, kw') := by
    rw [engineStep_of_next_url model paramKeys 0 kwargs u hnu h1 h2, hset]
    rfl
  refine ⟨kw', ?_, hin k v vs hk hv⟩
  have hrun : callApiRun model kwargs paramKeys 2
      = callApiBody model paramKeys kwargs (Json.str "first_run") 0
          (fun kw nu j => callApiAux model paramKeys kw nu j 1) := rfl
  rw [hrun]
  unfold callApiBody
  rw [whileCond_eq_true, hstep]
  have hD : plookupD (model 0 kwargs) "next_url" Json.null = Json.str u := by
    simp [plookupD, hnu]
  simp only [hD]
  rw [callApiAux_one_call model paramKeys kw' (Json.str u) 1
    (whileCond_eq_true _)]
  simp

/-- Witness for C4: property P2's scenario — a continuation URL with
`offset=42` makes the second transport call's `offset` argument the
string `"42"`. -/
theorem c4_witness :
    ∃ kw', (callApiRun c4_model nullTagsKwargs
        get_bookmark_tags_param_keys 2).callKwargs
        = [nullTagsKwargs, kw']
      ∧ plookup kw' "offset" = some (Json.str "42") :=
  c4_continuation_propagation c4_model nullTagsKwargs
    get_bookmark_tags_param_keys "x?offset=42" "offset" "42" []
    rfl (by decide) (by decide)
    (by
      intro k' hk'
      have : k' = "offset" := by
        simpa [get_bookmark_tags_param_keys] using hk'
      subst this
      exact ⟨"42", [], rfl⟩)
    (by simp [get_bookmark_tags_param_keys]) rfl

/-- Counterexample for C5.  The claim says a configured
continuation-parameter name missing from a present, non-empty
continuation URL makes the fetch fail with the malformed-continuation
error of the library's error taxonomy.  The code fails with a Python
built-in `KeyError` — no `MalformedContinuation` class exists and no
library exception is raised: `parse_qs(...)['offset']` simply throws. -/
theorem c5_counterexample :
    callApiRun (fun _ _ => c5_page) nullTagsKwargs
        get_bookmark_tags_param_keys 2
      = ⟨[], [nullTagsKwargs], RunStatus.failed (PyErr.keyError "offset")⟩
    ∧ isPixivpyError (PyErr.keyError "offset") = false :=
  ⟨rfl, rfl⟩

/-- Claim C5 (corrected).  The amended claim: if a configured
continuation-parameter name (here `offset`, the configuration of
`get_bookmark_tags`) is absent from the query string of a present,
non-empty, non-sentinel continuation URL, the fetch fails before
yielding that page — it does not silently reuse the stale parameter —
but the error is a Python `KeyError` naming the parameter, not an
exception of the library's taxonomy; no further transport call is made
regardless of how many more pulls the consumer attempts. -/
theorem c5_missing_param_key_error (model : Nat → Kwargs → Page)
    (kwargs : Kwargs) (u : String) (fuel : Nat)
    (hnu : plookup (model 0 kwargs) "next_url" = some (Json.str u))
    (h1 : u ≠ "") (h2 : u ≠ "first_run")
    (hq : qsLookup (parseQs (queryOf u)) "offset" = none) :
    callApiRun model kwargs get_bookmark_tags_param_keys (fuel + 1)
      = ⟨[], [kwargs], RunStatus.failed (PyErr.keyError "offset")⟩
    ∧ isPixivpyError (PyErr.keyError "offset") = false := by
  constructor
  · have hset : setParams (parseQs (queryOf u))
        get_bookmark_tags_param_keys kwargs
        = Except.error (PyErr.keyError "offset") := by
      simp [get_bookmark_tags_param_keys, setParams, hq]
    have hstep : engineStep model get_bookmark_tags_param_keys 0 kwargs
        = Except.error (PyErr.keyError "offset") := by
      rw [engineStep_of_next_url model get_bookmark_tags_param_keys 0 kwargs
        u hnu h1 h2, hset]
      rfl
    have hrun : callApiRun model kwargs get_bookmark_tags_param_keys (fuel + 1)
        = callApiBody model get_bookmark_tags_param_keys kwargs
            (Json.str "first_run") 0
            (fun kw nu j =>
              callApiAux model get_bookmark_tags_param_keys kw nu j fuel) :=
      rfl
    rw [hrun]
    unfold callApiBody
    rw [whileCond_eq_true, hstep]
    simp
  · rfl

/-- Witness for C5: a continuation URL whose query is `bar=2` (no
`offset`) stops the `get_bookmark_tags` run with `KeyError` after a
single transport call. -/
theorem c5_witness :
    callApiRun (fun _ _ => c5_page2) nullTagsKwargs
        get_bookmark_tags_param_keys 4
      = ⟨[], [nullTagsKwargs], RunStatus.failed (PyErr.keyError "offset")⟩
    ∧ isPixivpyError (PyErr.keyError "offset") = false :=
  c5_missing_param_key_error (fun _ _ => c5_page2) nullTagsKwargs
    "x?bar=2" 3 rfl (by decide) (by decide) rfl

/-- Counterexample for C6.  The claim's final clause says termination is
decided solely by the continuation field.  It is not: a page with an
empty list and `next_url = None` — terminal by the claim — still triggers
a second transport call (the loop-condition bug of `_call_api`), so the
continuation field does not decide termination either. -/
theorem c6_counterexample :
    (get_bookmarks_run (fun _ _ => c6_nullcont_page) Json.null Json.null
        Json.null Json.null 2).callKwargs.length = 2
    ∧ (get_bookmarks_run (fun _ _ => c6_nullcont_page) Json.null Json.null
        Json.null Json.null 2).items = [] :=
  ⟨rfl, rfl⟩

/-- Claim C6 (corrected).  The amended claim: a page whose list key maps
to an empty array but whose continuation field holds a non-empty,
non-sentinel URL is not terminal — the engine yields no items for that
page, stays live, and issues the next transport call with the kwargs
updated from the continuation URL.  List emptiness never causes
termination (the deleted clause "termination is decided solely by the
continuation field" fails: due to the loop-condition bug nothing causes
termination, see the counterexample). -/
theorem c6_empty_page_not_terminal (model : Nat → Kwargs → Page)
    (kwargs : Kwargs) (paramKeys : List String) (listKey : String)
    (u : String) (kw' : Kwargs)
    (hl : plookup (model 0 kwargs) listKey = some (Json.arr []))
    (hnu : plookup (model 0 kwargs) "next_url" = some (Json.str u))
    (h1 : u ≠ "") (h2 : u ≠ "first_run")
    (hset : setParams (parseQs (queryOf u)) paramKeys kwargs
      = Except.ok kw') :
    fetchRun model kwargs paramKeys listKey 1
      = ⟨[], [kwargs], RunStatus.suspended⟩
    ∧ (fetchRun model kwargs paramKeys listKey 2).callKwargs
      = [kwargs, kw'] := by
  have hstep : engineStep model paramKeys 0 kwargs
      = Except.ok (model 0 kwargs, kw') := by
    rw [engineStep_of_next_url model paramKeys 0 kwargs u hnu h1 h2, hset]
    rfl
  have hhas : phasKey (model 0 kwargs) listKey = true := by
    simp [phasKey, hl]
  have hlD : plookupD (model 0 kwargs) listKey Json.null = Json.arr [] := by
    simp [plookupD, hl]
  have hD : plookupD (model 0 kwargs) "next_url" Json.null = Json.str u := by
    simp [plookupD, hnu]
  constructor
  · have hrun : fetchRun model kwargs paramKeys listKey 1
        = fetchBody model paramKeys listKey kwargs (Json.str "first_run") 0
            (fun kw nu j => fetchAux model paramKeys listKey kw nu j 0) :=
      rfl
    rw [hrun]
    unfold fetchBody
    rw [whileCond_eq_true, hstep]
    simp [hhas, hlD, iterElems, fetchAux]
  · have hrun : fetchRun model kwargs paramKeys listKey 2
        = fetchBody model paramKeys listKey kwargs (Json.str "first_run") 0
            (fun kw nu j => fetchAux model paramKeys listKey kw nu j 1) :=
      rfl
    rw [hrun]
    unfold fetchBody
    rw [whileCond_eq_true, hstep]
    simp only [hhas, hlD, hD, iterElems]
    rw [fetchAux_one_call model paramKeys listKey kw' (Json.str u) 1
      (whileCond_eq_true _)]
    simp

/-- Witness for C6: an empty `illusts` page whose continuation URL
carries `max_bookmark_id=9` yields nothing, stays live, and the second
transport call's kwargs carry `max_bookmark_id = "9"`. -/
theorem c6_witness :
    get_bookmarks_run c6_model Json.null Json.null Json.null Json.null 1
      = ⟨[], [nullBookmarksKwargs], RunStatus.suspended⟩
    ∧ (get_bookmarks_run c6_model Json.null Json.null Json.null
        Json.null 2).callKwargs
      = [nullBookmarksKwargs,
         pset nullBookmarksKwargs "max_bookmark_id" (Json.str "9")] :=
  c6_empty_page_not_terminal c6_model nullBookmarksKwargs
    get_bookmarks_param_keys get_bookmarks_list_key "x?max_bookmark_id=9"
    (pset nullBookmarksKwargs "max_bookmark_id" (Json.str "9"))
    rfl rfl (by decide) (by decide) rfl

/-- Counterexample for C7.  The claim says renewal of an expired token
returns a token whose `expires_at` is strictly later than the input's.
The code computes `expires_at = int(time.time()) + expires_in` with no
check on `expires_in`: for a token expiring exactly now (`now = 100 =
expires_at`) and a refresh response with `expires_in = 0`, the renewed
token's `expires_at` equals the input's — not strictly later. -/
theorem c7_counterexample :
    renew_auth_token 100 200 (authRespBody "A2" "R2" 0) c7_tok
      = (Except.ok ⟨Json.str "A2", Json.str "R2", 0, 100⟩, 1)
    ∧ ¬ c7_tok.expires_at
        < (AuthToken.mk (Json.str "A2") (Json.str "R2") 0 100).expires_at :=
  ⟨rfl, by decide⟩

/-- Claim C7 (corrected).  The amended claim: `renew_auth_token` on a
token whose `expires_at` is strictly in the future returns that token's
values unchanged with zero refresh calls; on an expired token
(`expires_at <= now`) it issues exactly one refresh call, leaves the
input value untouched (the embedding is value-based, as is the source:
a fresh `AuthToken` is constructed) and returns a token with the
response's fields and `expires_at = now + expires_in` — strictly later
than the input's whenever `expires_in` is positive, which the code does
not check. -/
theorem c7_renewal (now : Int) (tok : AuthToken) (a r : String) (t : Int) :
    (tok.expires_at ≤ now →
      renew_auth_token now 200 (authRespBody a r t) tok
        = (Except.ok ⟨Json.str a, Json.str r, t, now + t⟩, 1)
      ∧ (0 < t → tok.expires_at < now + t))
    ∧ (now < tok.expires_at →
      renew_auth_token now 200 (authRespBody a r t) tok
        = (Except.ok tok, 0)) := by
  constructor
  · intro h
    constructor
    · unfold renew_auth_token
      rw [if_pos h]
      rfl
    · intro ht; omega
  · intro h
    unfold renew_auth_token
    rw [if_neg (not_le.mpr h)]

/-- Witness for C7: a token expiring at 90 renewed at instant 100 with a
response granting 10 seconds gives `expires_at = 110 > 90` after one
call, and a token expiring at 150 is returned unchanged with zero
calls. -/
theorem c7_witness :
    (renew_auth_token 100 200 (authRespBody "A2" "R2" 10)
        ⟨Json.str "A0", Json.str "R0", 3600, 90⟩
      = (Except.ok ⟨Json.str "A2", Json.str "R2", 10, 110⟩, 1)
      ∧ (90 : Int) < 110)
    ∧ renew_auth_token 100 200 (authRespBody "A2" "R2" 10)
        ⟨Json.str "A0", Json.str "R0", 3600, 150⟩
      = (Except.ok ⟨Json.str "A0", Json.str "R0", 3600, 150⟩, 0) := by
  have h1 := c7_renewal 100 ⟨Json.str "A0", Json.str "R0", 3600, 90⟩
    "A2" "R2" 10
  have h2 := c7_renewal 100 ⟨Json.str "A0", Json.str "R0", 3600, 150⟩
    "A2" "R2" 10
  have hexp := h1.1 (by decide)
  exact ⟨⟨hexp.1, hexp.2 (by decide)⟩, h2.2 (by decide)⟩

/-- Counterexample for C8.  The claim says a non-200 status or a
missing/mis-typed required field raises the authentication-failure error
of the library's taxonomy.  The code's blanket `except` wraps every
failure in `InvalidJsonResponse` — the library's `AuthError` class is
never raised — and a mis-typed `access_token` (an int) is not detected
at all: login succeeds and the int is stored in the token. -/
theorem c8_counterexample :
    (get_auth_token 1000 403 (authRespBody "A1" "R1" 3600)
        = Except.error
            (PyErr.invalidJsonWrapped (PyErr.invalidStatusCode 200 403))
      ∧ ∀ m, PyErr.invalidJsonWrapped (PyErr.invalidStatusCode 200 403)
          ≠ PyErr.authError m)
    ∧ get_auth_token 1000 200 c8_bad_access_body
        = Except.ok ⟨Json.num 5, Json.str "R1", 3600, 4600⟩ :=
  ⟨⟨rfl, fun _ h => nomatch h⟩, rfl⟩

/-- Claim C8 (corrected).  The amended claim: at any instant, initial
login against a 200 response with body
`{"response": {"access_token": "A1", "refresh_token": "R1",
"expires_in": 3600}}` returns an AuthToken holding exactly those values
with time-to-live 3600; a 403 status, a body missing `refresh_token`, or
a string-typed `expires_in` each raise the library's
`InvalidJsonResponse` wrapping the underlying cause
(`InvalidStatusCode`, `KeyError`, `TypeError` respectively) — not a
dedicated authentication-failure error.  (A mis-typed `access_token` or
`refresh_token` raises nothing; see the counterexample.) -/
theorem c8_login (now : Int) :
    get_auth_token now 200 (authRespBody "A1" "R1" 3600)
      = Except.ok ⟨Json.str "A1", Json.str "R1", 3600, now + 3600⟩
    ∧ get_auth_token now 403 (authRespBody "A1" "R1" 3600)
      = Except.error
          (PyErr.invalidJsonWrapped (PyErr.invalidStatusCode 200 403))
    ∧ get_auth_token now 200 c8_missing_refresh_body
      = Except.error
          (PyErr.invalidJsonWrapped (PyErr.keyError "refresh_token"))
    ∧ get_auth_token now 200 c8_bad_ttl_body
      = Except.error
          (PyErr.invalidJsonWrapped
            (PyErr.typeError "unsupported operand types for +")) :=
  ⟨rfl, rfl, rfl, rfl⟩

end Pixivpy
